import Mathlib

/-!
Verification of the reference-doc splicer script `scripts/doc_api_reference.py`.

The script post-processes generated API-reference HTML: it clears a staging
directory, moves the generated files into it, deletes the staged `index.html`,
and then rewrites every staged `.html` file in place.  The per-file rewrite
extracts the first `<body>(.*?)</body>` group, removes a hard-coded GoPages
navigation span with `re.sub`, escapes every `/` as `\/`, and splices the
result into the first `<article class="bd-article" role="main">(.*?)</article>`
region via a replacement callback.  Finally all staged files are moved to the
output directory.

The embedding below models documents as `List Char`, directories as lists of
(name, content) pairs, and the Python `IndexError` raised by `match.group(3)`
(the replacement callback asks for group 3 of a two-group pattern) as an
explicit `Except` error.  All regex uses in the script are literal patterns
except for one unescaped `.` (in `github.com`, matching any character) and two
non-greedy `.*?` gaps, which are modelled by leftmost-shortest scanning
functions, matching the semantics of `re.search` / `re.sub` with `re.DOTALL`.
-/

set_option maxRecDepth 4000

/-! ## Pattern constants, taken verbatim from the regex literals in the script -/

/-- Literal `<body>` from the pattern on line 44. -/
def bodyOpen : List Char := "<body>".toList

/-- Literal `</body>` from the pattern on line 44. -/
def bodyClose : List Char := "</body>".toList

/-- The literal part of the navigation pattern (line 49) before the unescaped
dot of `github.com`; `\/` in the pattern denotes a literal slash. -/
def navA1 : List Char := "<div class=\"top-heading\" id=\"heading-wide\"><a href=\"/pkg/github".toList

/-- The literal part of the navigation pattern between the unescaped dot of
`github.com` and the non-greedy gap `.*?`. -/
def navA2 : List Char := "com/ansys/allie-flowkit/\">GoPages | Auto-generated docs</a></div>".toList

/-- The literal menu-button tail of the navigation pattern on line 49. -/
def navB : List Char := "<a href=\"#\" id=\"menu-button\"><span id=\"menu-button-arrow\">&#9661;</span></a>".toList

/-- Group 1 of the splice pattern on line 58. -/
def articleOpen : List Char := "<article class=\"bd-article\" role=\"main\">".toList

/-- Group 2 of the splice pattern on line 58. -/
def articleClose : List Char := "</article>".toList

/-! ## Literal matching and leftmost-shortest search -/

/-- Match the literal `p` at the head of `s`; on success return the remainder.
This is how a regex engine consumes a literal at a fixed position. -/
def matchLit : List Char → List Char → Option (List Char)
  | [], s => some s
  | _ :: _, [] => none
  | p :: ps, c :: cs => if p = c then matchLit ps cs else none

/-- Split `s` at the first (leftmost) occurrence of the literal `needle`:
`some (pre, post)` with `s = pre ++ needle ++ post`.  This is the semantics of
a leftmost regex search for a literal, and also of the shortest match of
`.*?needle` from a fixed start (with `re.DOTALL`). -/
def splitOnFirst (needle : List Char) : List Char → Option (List Char × List Char)
  | [] => (matchLit needle []).map (fun r => (([] : List Char), r))
  | c :: rest =>
    match matchLit needle (c :: rest) with
    | some r => some ([], r)
    | none => (splitOnFirst needle rest).map (fun p => (c :: p.1, p.2))

/-- Bool test: does the literal `needle` occur anywhere in `s`. -/
def containsSub (needle s : List Char) : Bool := (splitOnFirst needle s).isSome

/-- Match the fixed-length head of the navigation pattern at the start of `s`:
the literal `navA1`, then one arbitrary character (the unescaped `.` of
`github.com`, any character under `re.DOTALL`), then the literal `navA2`. -/
def navHeadAt (s : List Char) : Option (List Char) :=
  match matchLit navA1 s with
  | none => none
  | some r =>
    match r with
    | [] => none
    | _ :: r2 => matchLit navA2 r2

/-- Split `s` at the first position where the navigation-pattern head matches:
`some (pre, post)` where `pre` is the text before the match and `post` the
remainder after the matched head. -/
def splitOnFirstNavHead : List Char → Option (List Char × List Char)
  | [] => none
  | c :: rest =>
    match navHeadAt (c :: rest) with
    | some r => some ([], r)
    | none => (splitOnFirstNavHead rest).map (fun p => (c :: p.1, p.2))

/-- Bool test: does the navigation-pattern head occur anywhere in `s`. -/
def containsNavHead (s : List Char) : Bool := (splitOnFirstNavHead s).isSome

/-- Try the full navigation pattern at the start of `s`: its fixed-length head,
then the shortest gap `.*?` up to the literal menu-button tail `navB`.  On
success return the text after the whole match. -/
def navMatchAt (s : List Char) : Option (List Char) :=
  match navHeadAt s with
  | none => none
  | some r =>
    match splitOnFirst navB r with
    | none => none
    | some (_, post) => some post

/-- Fuel-indexed scan implementing `re.sub(nav_pattern, r..., body, re.DOTALL)`:
replace every non-overlapping leftmost-shortest match with the empty string,
resuming after each match.  Each step consumes at least one character, so fuel
equal to the length of the input always suffices. -/
def navStripGo : Nat → List Char → List Char
  | 0, s => s
  | _ + 1, [] => []
  | fuel + 1, c :: rest =>
    match navMatchAt (c :: rest) with
    | some post => navStripGo fuel post
    | none => c :: navStripGo fuel rest

/-- Line 49 of the script: delete every match of the navigation pattern. -/
def navStrip (s : List Char) : List Char := navStripGo s.length s

/-- Line 52 of the script: `body_content.replace('/', '\\/')` — every literal
slash becomes a backslash followed by a slash. -/
def escapeSlashes : List Char → List Char
  | [] => []
  | c :: rest =>
    if c = '/' then '\\' :: '/' :: escapeSlashes rest else c :: escapeSlashes rest

/-- Lines 48-52 of the script: the cleaned, escaped body fragment. -/
def cleanedFragment (body : List Char) : List Char := escapeSlashes (navStrip body)

/-! ## The splice substitution and its group-3 error -/

/-- The one error the modelled script can raise: Python `IndexError: no such
group`, raised by `match.group(i)` when group `i` does not exist. -/
inductive PyErr where
  | noSuchGroup : PyErr
deriving DecidableEq

/-- A Python regex match object, reduced to its list of groups: index 0 is the
whole match, index `i` the text of capture group `i`. -/
structure PyMatch where
  groups : List (List Char)
deriving DecidableEq

/-- Python `match.group(i)`: the group text, or `IndexError` when the group
number is out of range. -/
def PyMatch.group (m : PyMatch) (i : Nat) : Except PyErr (List Char) :=
  match m.groups.get? i with
  | some g => .ok g
  | none => .error .noSuchGroup

/-- Lines 55-56 of the script, verbatim: the replacement callback returns
`match.group(1) + body_content + match.group(3)`.  The splice pattern has only
two groups, so the `group(3)` access is modelled faithfully and fails. -/
def replace_content (body_content : List Char) (m : PyMatch) : Except PyErr (List Char) :=
  match m.group 1 with
  | .error e => .error e
  | .ok g1 =>
    match m.group 3 with
    | .error e => .error e
    | .ok g3 => .ok (g1 ++ body_content ++ g3)

/-- Try the splice pattern
`(<article class="bd-article" role="main">).*?(</article>)` at the start of
`s`: on success return the match object (whole match, group 1, group 2) and
the remainder after the match. -/
def articleMatchAt (s : List Char) : Option (PyMatch × List Char) :=
  match matchLit articleOpen s with
  | none => none
  | some r =>
    match splitOnFirst articleClose r with
    | none => none
    | some (mid, post) =>
      some (⟨[articleOpen ++ mid ++ articleClose, articleOpen, articleClose]⟩, post)

/-- Bool test: does the splice pattern match anywhere in the document. -/
def articleFound : List Char → Bool
  | [] => false
  | c :: rest => (articleMatchAt (c :: rest)).isSome || articleFound rest

/-- Fuel-indexed scan implementing line 58:
`re.sub(article_pattern, replace_content, content, re.DOTALL)`.  An exception
raised by the replacement callback propagates out of `re.sub`. -/
def articleSubGo (bc : List Char) : Nat → List Char → Except PyErr (List Char)
  | 0, s => .ok s
  | _ + 1, [] => .ok []
  | fuel + 1, c :: rest =>
    match articleMatchAt (c :: rest) with
    | some (m, post) =>
      match replace_content bc m with
      | .error e => .error e
      | .ok rep =>
        match articleSubGo bc fuel post with
        | .error e => .error e
        | .ok t => .ok (rep ++ t)
    | none =>
      match articleSubGo bc fuel rest with
      | .error e => .error e
      | .ok t => .ok (c :: t)

/-- Line 58 of the script: substitute the cleaned body into every match of the
splice pattern in `content` via `replace_content`. -/
def articleSub (bc content : List Char) : Except PyErr (List Char) :=
  articleSubGo bc content.length content

/-! ## The per-document transform (lines 40-61) -/

/-- Line 44 of the script: `re.search(r'<body>(.*?)</body>', content, re.DOTALL)`,
returning group 1 of the leftmost-shortest match.  The leftmost match starts at
the first `<body>` and ends at the first `</body>` after it. -/
def bodySearch (content : List Char) : Option (List Char) :=
  match splitOnFirst bodyOpen content with
  | none => none
  | some (_, r) =>
    match splitOnFirst bodyClose r with
    | none => none
    | some (body, _) => some body

/-- Bool test: does `content` contain an attribute-free body tag pair. -/
def bodyFound (content : List Char) : Bool := (bodySearch content).isSome

/-- Lines 40-61 of the script: the full per-document transform.  When no body
matches, the file is left as is; otherwise the cleaned, escaped body is spliced
into the article region of the same content.  The result is the content the
script (re)writes, or the Python error that aborts the run. -/
def processHtml (content : List Char) : Except PyErr (List Char) :=
  match bodySearch content with
  | none => .ok content
  | some body0 => articleSub (escapeSlashes (navStrip body0)) content

/-! ## The directory-level pipeline (whole script) -/

/-- A file in a directory: its name and its content. -/
abbrev FsFile := String × List Char

/-- Line 38 of the script: `file.endswith(".html")`. -/
def endsWithHtml (name : String) : Bool := ".html".toList.isSuffixOf name.toList

/-- A staged file is safe exactly when processing it cannot raise: the group-3
error fires for `.html` files whose content has both a body match and a splice
match. -/
def safeFile (f : FsFile) : Bool :=
  !(endsWithHtml f.1 && (bodyFound f.2 && articleFound f.2))

/-- One iteration of the processing loop (lines 36-61) on a single staged file:
non-`.html` files are skipped; an error leaves the file unwritten. -/
def processEntry (f : FsFile) : FsFile × Option PyErr :=
  if endsWithHtml f.1 then
    match processHtml f.2 with
    | .error e => (f, some e)
    | .ok c2 => ((f.1, c2), none)
  else (f, none)

/-- The processing loop over the staged files, in listing order.  A raised
error aborts the loop: earlier files keep their (re)written content, the
failing file and all later files keep their previous content. -/
def processAll : List FsFile → List FsFile × Option PyErr
  | [] => ([], none)
  | f :: rest =>
    match processEntry f with
    | (f', some e) => (f' :: rest, some e)
    | (f', none) =>
      match processAll rest with
      | (t, e) => (f' :: t, e)

/-- Lines 17-22 of the script at the file level: every listed entry of the
replacement directory is unlinked. -/
def removeAllFiles : List FsFile → List FsFile
  | [] => []
  | _ :: rest => removeAllFiles rest

/-- The observable directory state when the script stops, plus the error that
aborted it, if any. -/
structure ScriptState where
  sourceDir : List FsFile
  stagingDir : List FsFile
  actualDir : List FsFile
  err : Option PyErr
deriving DecidableEq

/-- Lines 12-28: the staging directory after its cleanup and after every
source entry is moved into it. -/
def stagingAfterMoves (src staging0 : List FsFile) : List FsFile :=
  removeAllFiles staging0 ++ src

/-- Lines 30-33: delete the staged `index.html`, when present. -/
def removeIndexFile (l : List FsFile) : List FsFile :=
  l.filter (fun f => f.1 != "index.html")

/-- The whole script, lines 12-67: clear staging, move the source files in,
drop `index.html`, process every staged file, and move the staged files to the
output directory.  A processing error aborts before the final move, leaving
the staged files in the staging directory; the source directory was already
emptied by the earlier moves. -/
def runScript (src staging0 actual0 : List FsFile) : ScriptState :=
  match processAll (removeIndexFile (stagingAfterMoves src staging0)) with
  | (staged, some e) => ⟨[], staged, actual0, some e⟩
  | (staged, none) => ⟨[], [], actual0 ++ staged, none⟩

/-! ## Entry-kind model of the staging cleanup (lines 12-22) -/

/-- A directory entry as the cleanup loop distinguishes them: a regular file,
a symbolic link, or a subdirectory with its own entries. -/
inductive FsEntry where
  | file : String → List Char → FsEntry
  | symlink : String → String → FsEntry
  | dir : String → List FsEntry → FsEntry

/-- Lines 17-22 of the script: for each listed entry, a file or symlink is
unlinked and a subdirectory is removed recursively (`shutil.rmtree`). -/
def clearEntries : List FsEntry → List FsEntry
  | [] => []
  | FsEntry.file _ _ :: rest => clearEntries rest
  | FsEntry.symlink _ _ :: rest => clearEntries rest
  | FsEntry.dir _ _ :: rest => clearEntries rest

/-- Lines 12-22 of the script: create the replacement directory when absent
(`os.makedirs`), then delete all of its entries. -/
def ensureReplacementDir (d : Option (List FsEntry)) : List FsEntry :=
  clearEntries (d.getD [])

/-! ## Concrete documents used by the claim instances -/

/-- A document holding both an attribute-free body and the splice target. -/
def docC1 : List Char :=
  "<html><body>text/one<article class=\"bd-article\" role=\"main\">old</article></body></html>".toList

/-- A document shaped like an already-spliced output: the splice target filled
with escaped content, inside a body. -/
def docC9 : List Char :=
  "<html><body><article class=\"bd-article\" role=\"main\">x<\\/p></article></body></html>".toList

/-- A document with a body but with no splice target anywhere. -/
def docC3 : List Char := "<body>x/y</body><p>tail</p>".toList

/-- The full GoPages navigation header div, exactly as the pattern on line 49
expects it (the dot of `github.com` instantiating the unescaped `.`). -/
def navDivFull : List Char :=
  "<div class=\"top-heading\" id=\"heading-wide\"><a href=\"/pkg/github.com/ansys/allie-flowkit/\">GoPages | Auto-generated docs</a></div>".toList

/-- A body holding the full navigation header but no menu-button anchor. -/
def docC4 : List Char := navDivFull ++ "<p>x</p>".toList

/-- Text before the navigation span in the C5 instance. -/
def preC5 : List Char := "<p>u</p>".toList

/-- Text strictly between the two navigation fragments in the C5 instance. -/
def midC5 : List Char := "<p>mid</p>".toList

/-- Text after the navigation span in the C5 instance. -/
def postC5 : List Char := "<p>v</p>".toList

/-- The remainder after the navigation head in the C5 instance. -/
def restC5 : List Char := midC5 ++ navB ++ postC5

/-- A body holding both navigation fragments with content between them. -/
def bodyC5 : List Char := preC5 ++ navDivFull ++ restC5

/-- A body containing a slash but neither navigation fragment. -/
def bodyC6 : List Char := "pkg/one<p>q</p>".toList

/-- The C2 scenario file `a.html`: the placeholder article region of the shell
(the script splices each staged document against its own content) together
with the body given by the scenario. -/
def docC2 : List Char :=
  "<article class=\"bd-article\" role=\"main\"><p>placeholder</p></article><body><div class=\"top-heading\" id=\"heading-wide\">nav</div><p>content-a</p></body>".toList

/-- The C2 scenario source directory: exactly `a.html` and `index.html`. -/
def srcC2 : List FsFile := [("a.html", docC2), ("index.html", "<p>index</p>".toList)]

/-- A staged document whose processing raises the group-3 error. -/
def docC7bad : List Char :=
  "<body>b/1</body><article class=\"bd-article\" role=\"main\">old</article>".toList

/-- A two-file source directory (index plus one crashing document). -/
def srcC7 : List FsFile := [("index.html", "<p>i</p>".toList), ("b.html", docC7bad)]

/-- A two-file source directory whose processing completes. -/
def srcW7 : List FsFile :=
  [("index.html", "<p>i</p>".toList), ("a.html", "<body>safe</body>".toList)]

/-- A staged document whose processing raises the group-3 error. -/
def docC10bad : List Char :=
  "<body>z</body><article class=\"bd-article\" role=\"main\">t</article>".toList

/-- A source directory with a non-HTML file listed before a crashing file. -/
def srcC10 : List FsFile := [("notes.txt", "hello/world".toList), ("crash.html", docC10bad)]

/-- A non-HTML file, used as the untouched file of the C10 witness. -/
def fW10 : FsFile := ("data.txt", "x/y".toList)

/-- A source directory on which the run completes, holding `fW10`. -/
def srcW10 : List FsFile := [fW10, ("safe.html", "<body>ok</body>".toList)]

/-- A document with a body and no splice target, for the C3 witness. -/
def docW3 : List Char := "<body>w</body>".toList

/-- A body with neither navigation fragment, for the C4 witness. -/
def docW4 : List Char := "no/nav".toList

/-! ## Basic facts about literal matching and search -/

theorem matchLit_eq_some (p : List Char) :
    ∀ s r, matchLit p s = some r ↔ s = p ++ r := by
  induction p with
  | nil => intro s r; simp [matchLit]
  | cons a ps ih =>
    intro s r
    cases s with
    | nil => simp [matchLit]
    | cons c cs =>
      simp only [matchLit, List.cons_append]
      by_cases h : a = c
      · subst h; simp [ih]
      · simp only [if_neg h]
        constructor
        · intro hc; exact absurd hc (by simp)
        · intro hc
          injection hc with h1 _
          exact absurd h1.symm h

theorem splitOnFirst_eq_some (n : List Char) :
    ∀ s pre post, splitOnFirst n s = some (pre, post) → s = pre ++ n ++ post := by
  intro s
  induction s with
  | nil =>
    intro pre post h
    cases h0 : matchLit n ([] : List Char) with
    | none => rw [splitOnFirst, h0] at h; simp at h
    | some r =>
      rw [splitOnFirst, h0] at h
      simp only [Option.map_some', Option.some.injEq, Prod.mk.injEq] at h
      obtain ⟨rfl, rfl⟩ := h
      simpa using (matchLit_eq_some n [] _).mp h0
  | cons c cs ih =>
    intro pre post h
    cases h0 : matchLit n (c :: cs) with
    | some r =>
      rw [splitOnFirst, h0] at h
      simp only [Option.some.injEq, Prod.mk.injEq] at h
      obtain ⟨rfl, rfl⟩ := h
      simpa using (matchLit_eq_some n (c :: cs) _).mp h0
    | none =>
      rw [splitOnFirst, h0] at h
      cases h1 : splitOnFirst n cs with
      | none => rw [h1] at h; simp at h
      | some p =>
        obtain ⟨p1, p2⟩ := p
        rw [h1] at h
        simp only [Option.map_some', Option.some.injEq, Prod.mk.injEq] at h
        obtain ⟨rfl, rfl⟩ := h
        have := ih p1 _ h1
        simp [this]

theorem containsSub_cons (n : List Char) (c : Char) (t : List Char) :
    containsSub n (c :: t) = ((matchLit n (c :: t)).isSome || containsSub n t) := by
  cases h : matchLit n (c :: t) with
  | some r =>
    have hs : splitOnFirst n (c :: t) = some ([], r) := by rw [splitOnFirst, h]
    simp [containsSub, hs, h]
  | none =>
    have hs : splitOnFirst n (c :: t) = (splitOnFirst n t).map (fun p => (c :: p.1, p.2)) := by
      rw [splitOnFirst, h]
    simp only [containsSub, hs, h]
    cases splitOnFirst n t <;> simp

theorem containsSub_append_right (n h t : List Char) (hc : containsSub n t = true) :
    containsSub n (h ++ t) = true := by
  induction h with
  | nil => simpa using hc
  | cons c cs ih =>
    rw [List.cons_append, containsSub_cons]
    simp [ih]

/-! ## Facts about the navigation-strip substitution -/

theorem navHeadAt_eq_some (s r : List Char) (h : navHeadAt s = some r) :
    ∃ x, s = navA1 ++ x :: (navA2 ++ r) := by
  unfold navHeadAt at h
  cases h0 : matchLit navA1 s with
  | none => rw [h0] at h; simp at h
  | some r1 =>
    rw [h0] at h
    have hs : s = navA1 ++ r1 := (matchLit_eq_some navA1 s r1).mp h0
    cases r1 with
    | nil => simp at h
    | cons x r2 =>
      simp only at h
      have hr2 : r2 = navA2 ++ r := (matchLit_eq_some navA2 r2 r).mp h
      exact ⟨x, by rw [hs, hr2]⟩

theorem navMatchAt_of_noB (s : List Char) (h : containsSub navB s = false) :
    navMatchAt s = none := by
  cases h0 : navHeadAt s with
  | none => simp [navMatchAt, h0]
  | some r =>
    obtain ⟨x, hx⟩ := navHeadAt_eq_some s r h0
    unfold navMatchAt
    rw [h0]
    cases h1 : splitOnFirst navB r with
    | none => simp [h1]
    | some p =>
      exfalso
      have hr : containsSub navB r = true := by simp [containsSub, h1]
      have : containsSub navB s = true := by
        rw [hx, show navA1 ++ x :: (navA2 ++ r) = (navA1 ++ x :: navA2) ++ r by simp]
        exact containsSub_append_right _ _ _ hr
      rw [this] at h; exact absurd h (by simp)

theorem navStripGo_of_noB (fuel : Nat) :
    ∀ s, containsSub navB s = false → navStripGo fuel s = s := by
  induction fuel with
  | zero => intro s _; rfl
  | succ fuel ih =>
    intro s h
    cases s with
    | nil => rfl
    | cons c rest =>
      rw [navStripGo, navMatchAt_of_noB _ h]
      have hrest : containsSub navB rest = false := by
        rw [containsSub_cons] at h
        exact (Bool.or_eq_false_iff.mp h).2
      rw [ih rest hrest]

theorem containsNavHead_cons (c : Char) (t : List Char) :
    containsNavHead (c :: t) = ((navHeadAt (c :: t)).isSome || containsNavHead t) := by
  cases h : navHeadAt (c :: t) with
  | some r =>
    have hs : splitOnFirstNavHead (c :: t) = some ([], r) := by rw [splitOnFirstNavHead, h]
    simp [containsNavHead, hs, h]
  | none =>
    have hs : splitOnFirstNavHead (c :: t)
        = (splitOnFirstNavHead t).map (fun p => (c :: p.1, p.2)) := by
      rw [splitOnFirstNavHead, h]
    simp only [containsNavHead, hs, h]
    cases splitOnFirstNavHead t <;> simp

theorem navStripGo_of_noHead (fuel : Nat) :
    ∀ s, containsNavHead s = false → navStripGo fuel s = s := by
  induction fuel with
  | zero => intro s _; rfl
  | succ fuel ih =>
    intro s h
    cases s with
    | nil => rfl
    | cons c rest =>
      rw [containsNavHead_cons] at h
      obtain ⟨h1, h2⟩ := Bool.or_eq_false_iff.mp h
      have hnone : navHeadAt (c :: rest) = none := by
        cases h0 : navHeadAt (c :: rest) with
        | none => rfl
        | some r => rw [h0] at h1; simp at h1
      have hm : navMatchAt (c :: rest) = none := by unfold navMatchAt; rw [hnone]
      rw [navStripGo, hm, ih rest h2]

theorem navStripGo_span :
    ∀ (b : List Char) (fuel : Nat) (u r mid v : List Char),
      b.length ≤ fuel → splitOnFirstNavHead b = some (u, r) →
      splitOnFirst navB r = some (mid, v) → containsSub navB v = false →
      navStripGo fuel b = u ++ v := by
  intro b
  induction b with
  | nil =>
    intro fuel u r mid v _ h1
    rw [splitOnFirstNavHead] at h1; simp at h1
  | cons c rest ih =>
    intro fuel u r mid v hb h1 h2 h3
    cases fuel with
    | zero => exact absurd hb (by simp)
    | succ fuel =>
      cases hh : navHeadAt (c :: rest) with
      | some r0 =>
        rw [splitOnFirstNavHead, hh] at h1
        simp only [Option.some.injEq, Prod.mk.injEq] at h1
        obtain ⟨rfl, rfl⟩ := h1
        have hm : navMatchAt (c :: rest) = some v := by
          simp [navMatchAt, hh, h2]
        simp only [navStripGo, hm]
        rw [navStripGo_of_noB fuel v h3]
        simp
      | none =>
        rw [splitOnFirstNavHead, hh] at h1
        cases hs : splitOnFirstNavHead rest with
        | none => rw [hs] at h1; simp at h1
        | some p =>
          obtain ⟨u1, r1⟩ := p
          rw [hs] at h1
          simp only [Option.map_some', Option.some.injEq, Prod.mk.injEq] at h1
          obtain ⟨rfl, rfl⟩ := h1
          have hm : navMatchAt (c :: rest) = none := by simp [navMatchAt, hh]
          simp only [navStripGo, hm]
          rw [ih fuel u1 _ mid v (by simpa using Nat.le_of_succ_le_succ hb) hs h2 h3]
          simp

/-! ## Facts about the splice substitution and its group-3 failure -/

theorem articleMatchAt_shape (s : List Char) (m : PyMatch) (post : List Char)
    (h : articleMatchAt s = some (m, post)) :
    ∃ mid, m = ⟨[articleOpen ++ mid ++ articleClose, articleOpen, articleClose]⟩ := by
  unfold articleMatchAt at h
  cases h0 : matchLit articleOpen s with
  | none => rw [h0] at h; simp at h
  | some r =>
    rw [h0] at h
    cases h1 : splitOnFirst articleClose r with
    | none => simp [h1] at h
    | some p =>
      obtain ⟨mid, p2⟩ := p
      simp only [h1, Option.some.injEq, Prod.mk.injEq] at h
      exact ⟨mid, h.1.symm⟩

theorem replace_content_group3 (bc mid : List Char) :
    replace_content bc ⟨[articleOpen ++ mid ++ articleClose, articleOpen, articleClose]⟩
      = .error .noSuchGroup := by
  rfl

theorem articleSubGo_of_notFound (fuel : Nat) :
    ∀ s bc, articleFound s = false → articleSubGo bc fuel s = .ok s := by
  induction fuel with
  | zero => intro s bc _; rfl
  | succ fuel ih =>
    intro s bc h
    cases s with
    | nil => rfl
    | cons c rest =>
      rw [articleFound] at h
      obtain ⟨h1, h2⟩ := Bool.or_eq_false_iff.mp h
      have hnone : articleMatchAt (c :: rest) = none := by
        cases h0 : articleMatchAt (c :: rest) with
        | none => rfl
        | some p => rw [h0] at h1; simp at h1
      simp only [articleSubGo, hnone]
      rw [ih rest bc h2]

theorem articleSubGo_of_found :
    ∀ (s : List Char) (fuel : Nat) (bc : List Char), s.length ≤ fuel → articleFound s = true →
      articleSubGo bc fuel s = .error .noSuchGroup := by
  intro s
  induction s with
  | nil => intro fuel bc _ h; simp [articleFound] at h
  | cons c rest ih =>
    intro fuel bc hl h
    cases fuel with
    | zero => exact absurd hl (by simp)
    | succ fuel =>
      cases h0 : articleMatchAt (c :: rest) with
      | some p =>
        obtain ⟨m, post⟩ := p
        obtain ⟨mid, rfl⟩ := articleMatchAt_shape _ _ _ h0
        simp only [articleSubGo, h0, replace_content_group3]
      | none =>
        rw [articleFound, h0] at h
        simp only [Option.isSome_none, Bool.false_or] at h
        simp only [articleSubGo, h0]
        rw [ih fuel bc (by simpa using Nat.le_of_succ_le_succ hl) h]

theorem processHtml_of_noArticle (c : List Char) (h : articleFound c = false) :
    processHtml c = .ok c := by
  unfold processHtml
  cases hb : bodySearch c with
  | none => rfl
  | some b0 =>
    simp only
    unfold articleSub
    exact articleSubGo_of_notFound _ _ _ h

theorem processHtml_group3 (c : List Char) (hb : bodyFound c = true)
    (ha : articleFound c = true) : processHtml c = .error .noSuchGroup := by
  unfold processHtml
  cases h0 : bodySearch c with
  | none => rw [bodyFound, h0] at hb; simp at hb
  | some b0 =>
    simp only
    unfold articleSub
    exact articleSubGo_of_found c c.length _ (Nat.le_refl _) ha

theorem processHtml_ok_of (c : List Char)
    (h : bodyFound c = false ∨ articleFound c = false) : processHtml c = .ok c := by
  rcases h with h | h
  · unfold processHtml
    cases h0 : bodySearch c with
    | none => rfl
    | some b0 => rw [bodyFound, h0] at h; simp at h
  · exact processHtml_of_noArticle c h

/-! ## Facts about the directory-level pipeline -/

theorem processEntry_of_safe (f : FsFile) (h : safeFile f = true) :
    processEntry f = (f, none) := by
  unfold safeFile at h
  cases hE : endsWithHtml f.1 with
  | false => simp [processEntry, hE]
  | true =>
    rw [hE] at h
    simp only [Bool.true_and, Bool.not_eq_true'] at h
    have hor : bodyFound f.2 = false ∨ articleFound f.2 = false := by
      cases hB : bodyFound f.2 with
      | false => exact Or.inl rfl
      | true =>
        cases hA : articleFound f.2 with
        | false => exact Or.inr rfl
        | true => rw [hB, hA] at h; simp at h
    have := processHtml_ok_of f.2 hor
    simp [processEntry, hE, this]

theorem processAll_of_safe :
    ∀ l : List FsFile, (∀ f ∈ l, safeFile f = true) → processAll l = (l, none) := by
  intro l
  induction l with
  | nil => intro _; rfl
  | cons f rest ih =>
    intro h
    have hf : processEntry f = (f, none) := processEntry_of_safe f (h f (by simp))
    have hrest : processAll rest = (rest, none) := ih (fun g hg => h g (by simp [hg]))
    simp only [processAll, hf, hrest]

theorem removeAllFiles_eq_nil : ∀ l : List FsFile, removeAllFiles l = [] := by
  intro l
  induction l with
  | nil => rfl
  | cons f rest ih => simpa [removeAllFiles] using ih

theorem clearEntries_eq_nil : ∀ l : List FsEntry, clearEntries l = [] := by
  intro l
  induction l with
  | nil => rfl
  | cons e rest ih => cases e <;> simpa [clearEntries] using ih

theorem removeIndexFile_length :
    ∀ l : List FsFile,
      (removeIndexFile l).length + l.countP (fun f => f.1 == "index.html") = l.length := by
  intro l
  induction l with
  | nil => rfl
  | cons f rest ih =>
    cases h : (f.1 == "index.html") with
    | true =>
      have h1 : (f.1 != "index.html") = false := by simp [bne, h]
      simp [removeIndexFile, List.filter_cons, List.countP_cons, h, h1] at ih ⊢
      omega
    | false =>
      have h1 : (f.1 != "index.html") = true := by simp [bne, h]
      simp [removeIndexFile, List.filter_cons, List.countP_cons, h, h1] at ih ⊢
      omega

theorem runScript_of_safe (src staging0 actual0 : List FsFile)
    (h : ∀ f ∈ src, safeFile f = true) :
    runScript src staging0 actual0 = ⟨[], [], actual0 ++ removeIndexFile src, none⟩ := by
  have hm : stagingAfterMoves src staging0 = src := by
    simp [stagingAfterMoves, removeAllFiles_eq_nil]
  have hsafe3 : ∀ f ∈ removeIndexFile src, safeFile f = true := by
    intro f hf
    exact h f (List.mem_filter.mp hf).1
  unfold runScript
  rw [hm, processAll_of_safe _ hsafe3]

/-! ## Claims -/

/-- Claim C1 (code bug): the spec says the output article region receives the
cleaned, escaped body between the preserved placeholder tags, with everything
outside preserved.  The replacement callback instead asks for group 3 of the
two-group splice pattern, so on any retained document containing both a body
and the placeholder the script raises IndexError and produces no output at
all: here evaluated on such a document. -/
theorem C1_group3_aborts_splice : processHtml docC1 = Except.error PyErr.noSuchGroup := by
  rfl

/-- Claim C2 (counterexample): on the end-to-end scenario the script produces
no output file at all and does not leave the staging directory empty,
contradicting the claimed single spliced output. -/
theorem C2_no_output_produced :
    (runScript srcC2 [] []).actualDir = [] ∧
    (runScript srcC2 [] []).stagingDir ≠ [] ∧
    (runScript srcC2 [] []).err ≠ none := by
  refine ⟨by decide, by decide, by decide⟩

/-- Claim C2 (amended): on the scenario the script empties the source
directory, stages `a.html`, deletes `index.html`, and then aborts with the
group-3 IndexError while splicing `a.html`, leaving it unmodified in the
staging directory and producing no output. -/
theorem C2_scenario_aborts :
    runScript srcC2 [] [] = ⟨[], [("a.html", docC2)], [], some PyErr.noSuchGroup⟩ := by
  decide

/-- Claim C3 (counterexample): a document with a body but no placeholder
region is processed without any error and left unchanged — the operation
completes silently instead of raising the claimed fatal error. -/
theorem C3_no_error_without_placeholder :
    bodyFound docC3 = true ∧ articleFound docC3 = false ∧
    processHtml docC3 = Except.ok docC3 := by
  refine ⟨by decide, by decide, by rfl⟩

/-- Claim C3 (amended): when a document lacks the placeholder region the
substitution finds no match, so the transform completes silently with the
document unchanged — no merge and no error. -/
theorem C3_missing_placeholder_silent (c : List Char) (h : articleFound c = false) :
    processHtml c = Except.ok c :=
  processHtml_of_noArticle c h

/-- Claim C3 (witness): the amended claim applied to a concrete document. -/
theorem C3_missing_placeholder_silent_witness :
    articleFound docW3 = false ∧ processHtml docW3 = Except.ok docW3 :=
  ⟨by decide, C3_missing_placeholder_silent docW3 (by decide)⟩

/-- Claim C4 (counterexample): a body holding the complete navigation header
fragment but no menu-button anchor is left entirely unchanged by the cleaning
step — the header is NOT removed, refuting the claimed independent removal. -/
theorem C4_header_kept_without_menu :
    containsNavHead docC4 = true ∧ containsSub navB docC4 = false ∧
    navStrip docC4 = docC4 := by
  refine ⟨by decide, by decide, by decide⟩

/-- Claim C4 (amended): the single navigation pattern removes the two
fragments only jointly; whenever either the header fragment or the menu-button
anchor is absent, the cleaning step removes nothing and leaves the body
unchanged, and absence raises no error. -/
theorem C4_strip_requires_both_fragments (b : List Char)
    (h : containsNavHead b = false ∨ containsSub navB b = false) :
    navStrip b = b := by
  rcases h with h | h
  · exact navStripGo_of_noHead b.length b h
  · exact navStripGo_of_noB b.length b h

/-- Claim C4 (witness): the amended claim applied to a concrete body. -/
theorem C4_strip_requires_both_fragments_witness :
    (containsNavHead docW4 = false ∨ containsSub navB docW4 = false) ∧
    navStrip docW4 = docW4 :=
  ⟨Or.inl (by decide), C4_strip_requires_both_fragments docW4 (Or.inl (by decide))⟩

/-- Claim C5: when the body contains the navigation header (first occurrence
splitting it as `u ++ head ++ r`) followed by the menu-button anchor (first
occurrence in `r` splitting it as `mid ++ navB ++ v`, with no further anchor
in `v`), the cleaning step deletes the whole contiguous span — the header, all
content `mid` between the fragments, and the anchor — keeping `u` and `v`. -/
theorem C5_nav_span_removed (b u r mid v : List Char)
    (h1 : splitOnFirstNavHead b = some (u, r))
    (h2 : splitOnFirst navB r = some (mid, v))
    (h3 : containsSub navB v = false) :
    navStrip b = u ++ v :=
  navStripGo_span b b.length u r mid v (Nat.le_refl _) h1 h2 h3

/-- Claim C5 (witness): the span deletion on a concrete body holding both
fragments with content between them. -/
theorem C5_nav_span_removed_witness :
    splitOnFirstNavHead bodyC5 = some (preC5, restC5) ∧
    splitOnFirst navB restC5 = some (midC5, postC5) ∧
    containsSub navB postC5 = false ∧
    navStrip bodyC5 = preC5 ++ postC5 :=
  ⟨by decide, by decide, by decide,
    C5_nav_span_removed bodyC5 preC5 restC5 midC5 postC5 (by decide) (by decide) (by decide)⟩

/-- Claim C6: when a body contains neither navigation fragment, the cleaning
step changes nothing and the cleaned fragment is exactly the body with every
slash escaped; no error arises. -/
theorem C6_clean_escapes_only (b : List Char)
    (h1 : containsNavHead b = false) (_h2 : containsSub navB b = false) :
    navStrip b = b ∧ cleanedFragment b = escapeSlashes b := by
  have hb : navStrip b = b := navStripGo_of_noHead b.length b h1
  exact ⟨hb, by unfold cleanedFragment; rw [hb]⟩

/-- Claim C6 (witness): the claim applied to a concrete body with a slash. -/
theorem C6_clean_escapes_only_witness :
    containsNavHead bodyC6 = false ∧ containsSub navB bodyC6 = false ∧
    (navStrip bodyC6 = bodyC6 ∧ cleanedFragment bodyC6 = escapeSlashes bodyC6) :=
  ⟨by decide, by decide, C6_clean_escapes_only bodyC6 (by decide) (by decide)⟩

/-- Claim C7 (counterexample): a two-file source directory with the index file
and one document holding both a body and the placeholder: the run aborts with
the group-3 error and the destination receives zero files, not n - 1 = 1. -/
theorem C7_crash_breaks_count :
    srcC7.length = 2 ∧ srcC7.countP (fun f => f.1 == "index.html") = 1 ∧
    (runScript srcC7 [] []).err = some PyErr.noSuchGroup ∧
    ¬((runScript srcC7 [] []).actualDir.length = srcC7.length - 1) := by
  refine ⟨by decide, by decide, by decide, by decide⟩

/-- Claim C7 (amended): when no staged file can trigger the group-3 splice
error, the run completes and moves exactly the non-index source files — each
exactly once, unchanged — into the (initially empty) destination, whose file
count is then the source count minus one. -/
theorem C7_output_counts (src staging0 : List FsFile)
    (hIdx : src.countP (fun f => f.1 == "index.html") = 1)
    (hsafe : ∀ f ∈ src, safeFile f = true) :
    (runScript src staging0 []).err = none ∧
    (runScript src staging0 []).actualDir = removeIndexFile src ∧
    (runScript src staging0 []).actualDir.length = src.length - 1 := by
  rw [runScript_of_safe src staging0 [] hsafe]
  refine ⟨rfl, by simp, ?_⟩
  have := removeIndexFile_length src
  simp only [List.nil_append]
  omega

/-- Claim C7 (witness): the amended claim on a concrete safe source bundle. -/
theorem C7_output_counts_witness :
    (runScript srcW7 [] []).err = none ∧
    (runScript srcW7 [] []).actualDir = removeIndexFile srcW7 ∧
    (runScript srcW7 [] []).actualDir.length = srcW7.length - 1 :=
  C7_output_counts srcW7 [] (by decide) (by decide)

/-- Claim C8: before any source file is moved, the staging directory exists
and is empty — it is created when absent, every entry (file, symlink or
subdirectory) is deleted when present — and consequently the whole run is
independent of whatever the staging directory previously held. -/
theorem C8_staging_starts_empty (d : Option (List FsEntry))
    (src staging0 staging0' actual0 : List FsFile) :
    ensureReplacementDir d = [] ∧
    runScript src staging0 actual0 = runScript src staging0' actual0 := by
  constructor
  · unfold ensureReplacementDir
    exact clearEntries_eq_nil _
  · unfold runScript stagingAfterMoves
    rw [removeAllFiles_eq_nil, removeAllFiles_eq_nil]

/-- Claim C9 (code bug): the spec claims a second application of the transform
to already-spliced output differs from the first (double escaping).  In the
code, any document containing the splice target — in particular any spliced
output — makes the transform raise the group-3 IndexError instead of
producing anything: evaluated here on a spliced-output-shaped document. -/
theorem C9_rerun_aborts : processHtml docC9 = Except.error PyErr.noSuchGroup := by
  rfl

/-- Claim C10 (counterexample): a non-HTML staged file is NOT relocated to the
destination when another staged file aborts the run: the script stops before
the final move loop and the file stays in the staging directory. -/
theorem C10_file_stranded_on_abort :
    endsWithHtml "notes.txt" = false ∧
    ("notes.txt", "hello/world".toList) ∈ (runScript srcC10 [] []).stagingDir ∧
    (runScript srcC10 [] []).actualDir = [] ∧
    (runScript srcC10 [] []).err = some PyErr.noSuchGroup := by
  refine ⟨by decide, by decide, by decide, by decide⟩

/-- Claim C10 (amended): a staged file whose name does not end in `.html`, or
whose content has no attribute-free body pair, passes the transform step
byte-for-byte unchanged and error-free; and provided no staged file triggers
the group-3 splice error, it is relocated to the destination identical. -/
theorem C10_untouched_passthrough (src staging0 actual0 : List FsFile) (f : FsFile)
    (hf : f ∈ src) (hn : (f.1 != "index.html") = true)
    (hskip : endsWithHtml f.1 = false ∨ bodyFound f.2 = false)
    (hsafe : ∀ g ∈ src, safeFile g = true) :
    processEntry f = (f, none) ∧ f ∈ (runScript src staging0 actual0).actualDir := by
  constructor
  · rcases hskip with h | h
    · simp [processEntry, h]
    · have hok := processHtml_ok_of f.2 (Or.inl h)
      cases hE : endsWithHtml f.1 with
      | false => simp [processEntry, hE]
      | true => simp [processEntry, hE, hok]
  · rw [runScript_of_safe src staging0 actual0 hsafe]
    show f ∈ actual0 ++ removeIndexFile src
    simp [removeIndexFile, List.mem_append, List.mem_filter, hf, hn]

/-- Claim C10 (witness): the amended claim on a concrete run holding a
non-HTML file. -/
theorem C10_untouched_passthrough_witness :
    fW10 ∈ srcW10 ∧
    (processEntry fW10 = (fW10, none) ∧ fW10 ∈ (runScript srcW10 [] []).actualDir) :=
  ⟨by decide,
    C10_untouched_passthrough srcW10 [] [] fW10 (by decide) (by decide)
      (Or.inl (by decide)) (by decide)⟩
